import Mathlib

/-!
Verification of `school_data.py` (ENSF692/a3): a shallow embedding of the
loader, the per-school reporter, the aggregate reporter and the selector,
with theorems about the behaviour the specification describes.

Modelling conventions:
* A numpy cell is `Option ℚ`: `none` models the NaN "missing" sentinel,
  `some q` a present count.  Numeric values are idealised as exact
  rationals (the float32 arithmetic of the script is modelled exactly).
* `np.nansum` over a vector with no non-missing entry returns `0`
  (numpy semantics), `np.nanmean` of such a vector is NaN (here `none`).
* A CSV row is a `Row`; the loader, the reporters and the selection
  logic of `main` are translated line by line from the source.
-/

namespace SchoolData

/-- A numpy cell: `none` is the NaN missing sentinel. -/
abbrev Cell := Option ℚ

/-- The dense 3-axis table: year-position → school-position → grade-position. -/
abbrev Table := List (List (List Cell))

/-- The non-missing entries of a vector of cells, in order. -/
def nonMissing (l : List Cell) : List ℚ := l.filterMap id

/-- `np.nansum`: sum over the non-missing entries; `0` when all are missing. -/
def nansum (l : List Cell) : ℚ := (nonMissing l).sum

/-- `np.nanmean`: mean over the non-missing entries; NaN (`none`) when all are missing. -/
def nanmean (l : List Cell) : Option ℚ :=
  if (nonMissing l).length = 0 then none
  else some ((nonMissing l).sum / (nonMissing l).length)

/-- `np.nanmax`: maximum over the non-missing entries; NaN (`none`) when all are missing. -/
def nanmax (l : List Cell) : Option ℚ := (nonMissing l).max?

/-- `np.nanmin`: minimum over the non-missing entries; NaN (`none`) when all are missing. -/
def nanmin (l : List Cell) : Option ℚ := (nonMissing l).min?

/-- `np.median`: middle element of the sorted list for odd length, average of
the two middle elements for even length. -/
def npMedian (l : List ℚ) : ℚ :=
  let s := List.insertionSort (· ≤ ·) l
  if l.length % 2 = 1 then s.getD (l.length / 2) 0
  else (s.getD (l.length / 2 - 1) 0 + s.getD (l.length / 2) 0) / 2

/-- One CSV row: school year, school code, school name, grade 10/11/12 counts. -/
structure Row where
  year : Nat
  code : Nat
  name : String
  g10 : ℚ
  g11 : ℚ
  g12 : ℚ
deriving DecidableEq

/-- Keep the first occurrence of each element, dropping later duplicates
(`pandas.unique` / `drop_duplicates` keep-first semantics). `seen` is the
accumulator of already-emitted elements. -/
def dedupFirstAux [DecidableEq α] (seen : List α) : List α → List α
  | [] => []
  | a :: l => if a ∈ seen then dedupFirstAux seen l else a :: dedupFirstAux (a :: seen) l

/-- First-occurrence deduplication, as `pandas` `unique`/`drop_duplicates` do. -/
def dedupFirst [DecidableEq α] (l : List α) : List α := dedupFirstAux [] l

/-- `sorted(df[col].unique())`: the distinct values, sorted ascending. -/
def sortedUnique (l : List Nat) : List Nat := List.insertionSort (· ≤ ·) (dedupFirst l)

/-- `sorted(df["School Code"].unique())` in `load_school_data`. -/
def school_codes (rows : List Row) : List Nat := sortedUnique (rows.map (·.code))

/-- `sorted(df["School Year"].unique())` in `load_school_data`. -/
def years_of (rows : List Row) : List Nat := sortedUnique (rows.map (·.year))

/-- Insert a key/value pair into an association list with Python-dict
semantics: an existing key keeps its position and has its value
overwritten, a new key is appended. -/
def dictInsert (d : List (Nat × String)) (c : Nat) (n : String) : List (Nat × String) :=
  if d.any (fun p => p.1 == c) then d.map (fun p => if p.1 == c then (c, n) else p)
  else d ++ [(c, n)]

/-- The code→name dictionary built by
`df[["School Code","School Name"]].drop_duplicates().set_index("School Code").to_dict()["School Name"]`:
distinct (code, name) pairs in first-occurrence order, poured into a dict
(a later pair with a duplicate code overwrites the value). -/
def school_names (rows : List Row) : List (Nat × String) :=
  (dedupFirst (rows.map (fun r => (r.code, r.name)))).foldl
    (fun d p => dictInsert d p.1 p.2) []

/-- The cell block for one (year, school-code) pair:
`df[(df["School Year"] == year) & (df["School Code"] == code)]`, taking
`values[0]` of the first matching row when the selection is non-empty and
leaving the NaN initialisation in place otherwise. -/
def cellFor (rows : List Row) (y c : Nat) : List Cell :=
  match rows.find? (fun r => r.year == y && r.code == c) with
  | some r => [some r.g10, some r.g11, some r.g12]
  | none => [none, none, none]

/-- `load_school_data`: the dense `(years × codes × 3)` table, NaN-filled
then populated from the matching rows. -/
def load_table (rows : List Row) : Table :=
  (years_of rows).map (fun y => (school_codes rows).map (fun c => cellFor rows y c))

/-- The calendar year of `data[-1]`: the last entry of the year axis. -/
def lastYear (rows : List Row) : Nat := (years_of rows).getLastD 0

/-- `data[:, school_idx, :]`: the per-year rows of one school. -/
def school_slice (data : Table) (j : Nat) : List (List Cell) :=
  data.map (fun yearRow => yearRow.getD j [])

/-- The column of one grade in a 2-axis slice (`axis=0` direction). -/
def gradeColumn (sd : List (List Cell)) (g : Nat) : List Cell :=
  sd.map (fun row => row.getD g none)

/-- The values computed by `print_school_statistics` (before the `int(...)`
rounding applied only at print time). -/
structure SchoolStats where
  mean_enrollments : List (Option ℚ)
  max_enrollment : Option ℚ
  min_enrollment : Option ℚ
  total_enrollment_per_year : List ℚ
  total_ten_year : ℚ
  mean_yearly : Option ℚ
  large_classes : List ℚ
  median_large_classes : Option ℚ
deriving DecidableEq

/-- `print_school_statistics(data, school_idx, ...)`, computation part.
`school_data[school_data > 500]` flattens in C order (year-major, then
grade) and drops NaNs, since `NaN > 500` is false. -/
def print_school_statistics (data : Table) (j : Nat) : SchoolStats :=
  let sd := school_slice data j
  let totals := sd.map nansum
  let large := (nonMissing sd.flatten).filter (fun v => 500 < v)
  { mean_enrollments := (List.range 3).map (fun g => nanmean (gradeColumn sd g))
    max_enrollment := nanmax sd.flatten
    min_enrollment := nanmin sd.flatten
    total_enrollment_per_year := totals
    total_ten_year := nansum (totals.map some)
    mean_yearly := nanmean (totals.map some)
    large_classes := large
    median_large_classes := if large.isEmpty then none else some (npMedian large) }

/-- The values computed by `print_general_statistics`. -/
structure GeneralStats where
  mean_first : Option ℚ
  mean_last : Option ℚ
  total_grads_last : ℚ
  max_enrollment : Option ℚ
  min_enrollment : Option ℚ
deriving DecidableEq

/-- `print_general_statistics(data)`: `data[0]` is the first year,
`data[-1]` the last year, `data[-1, :, 2]` the grade-12 column of the last year. -/
def print_general_statistics (data : Table) : GeneralStats :=
  { mean_first := nanmean (data.headD []).flatten
    mean_last := nanmean (data.getLastD []).flatten
    total_grads_last := nansum (gradeColumn (data.getLastD []) 2)
    max_enrollment := nanmax data.flatten.flatten
    min_enrollment := nanmin data.flatten.flatten }

/-- Python `str.isdigit` (ASCII model): non-empty and every character a
decimal digit. -/
def pyIsDigit (s : String) : Bool := !s.data.isEmpty && s.data.all (·.isDigit)

/-- Decimal value of a digit string, as `int(s)` computes it for a string
that passed `isdigit`. -/
def digitsToNat (l : List Char) : Nat := l.foldl (fun acc c => acc * 10 + (c.toNat - 48)) 0

/-- `int(school_input)` after the `isdigit` guard. -/
def pyInt (s : String) : Nat := digitsToNat s.data

/-- Python `int(s)` acceptance on a trimmed literal: an optional sign
followed by decimal digits (underscore/whitespace forms omitted).  Used
only to state what "parses as an integer" means. -/
def pyIntParse (s : String) : Option Int :=
  match s.data with
  | [] => none
  | '-' :: rest =>
      if !rest.isEmpty && rest.all (·.isDigit) then some (-(digitsToNat rest : Int)) else none
  | '+' :: rest =>
      if !rest.isEmpty && rest.all (·.isDigit) then some (digitsToNat rest : Int) else none
  | l => if l.all (·.isDigit) then some (digitsToNat l : Int) else none

/-- `list(school_names.keys())[list(school_names.values()).index(input)]`:
the key of the first dict entry whose value is the given name. -/
def lookupCodeByName (d : List (Nat × String)) (n : String) : Option Nat :=
  (d.find? (fun p => p.2 == n)).map (·.1)

/-- The observable outcome of `main` after the input prompt:
* `report`: both statistics blocks printed for the resolved
  (index, name, code);
* `valueError`: a `ValueError` was raised, caught by the handler, its
  message printed, and the program ended normally;
* `unboundLocalCrash`: the `print_school_statistics(...)` call referenced
  the local `school_code`, which the integer branch never assigns, so
  Python raises `UnboundLocalError`; `except ValueError` does not catch it
  and the program aborts with a traceback. -/
inductive MainOutcome where
  | report (idx : Nat) (name : String) (code : Nat) (s : SchoolStats) (g : GeneralStats)
  | valueError (msg : String)
  | unboundLocalCrash
deriving DecidableEq

/-- The selection logic of `main` (lines 106-130) and what follows it. -/
def main_outcome (rows : List Row) (input : String) : MainOutcome :=
  let data := load_table rows
  let codes := school_codes rows
  let names := school_names rows
  if pyIsDigit input then
    if pyInt input ∈ codes then
      -- school_idx and school_name are assigned here, but school_code is
      -- not: evaluating the arguments of print_school_statistics raises
      -- UnboundLocalError, which the except-ValueError handler lets through.
      MainOutcome.unboundLocalCrash
    else MainOutcome.valueError "School code not found."
  else
    match lookupCodeByName names input with
    | some c =>
        MainOutcome.report (codes.indexOf c) input c
          (print_school_statistics data (codes.indexOf c))
          (print_general_statistics data)
    | none => MainOutcome.valueError "School name not found."

/-- Whether the run aborted with the uncaught `UnboundLocalError`. -/
def isCrash : MainOutcome → Bool
  | MainOutcome.unboundLocalCrash => true
  | _ => false

/-- The (index, name, code) triple a successful run resolved to. -/
def resolvedTriple : MainOutcome → Option (Nat × String × Nat)
  | MainOutcome.report idx name code _ _ => some (idx, name, code)
  | _ => none

/-- A small concrete data set: two schools, two years, each school present
in exactly one year (so each has a fully-missing year). -/
def sampleRows : List Row :=
  [⟨2013, 101, "Alpha", 100, 200, 600⟩,
   ⟨2014, 202, "Beta", 50, 60, 70⟩]

end SchoolData

/-! ## Helper lemmas -/

namespace SchoolData

theorem mem_dedupFirstAux [DecidableEq α] (l : List α) :
    ∀ (seen : List α) (a : α), a ∈ dedupFirstAux seen l ↔ a ∈ l ∧ a ∉ seen := by
  induction l with
  | nil => intro seen a; simp [dedupFirstAux]
  | cons b l ih =>
    intro seen a
    by_cases hb : b ∈ seen
    · rw [dedupFirstAux, if_pos hb, ih]
      simp only [List.mem_cons]
      constructor
      · rintro ⟨h1, h2⟩; exact ⟨Or.inr h1, h2⟩
      · rintro ⟨rfl | h1, h2⟩
        · exact absurd hb h2
        · exact ⟨h1, h2⟩
    · rw [dedupFirstAux, if_neg hb]
      simp only [List.mem_cons, ih]
      constructor
      · rintro (rfl | ⟨h1, h2⟩)
        · exact ⟨Or.inl rfl, hb⟩
        · exact ⟨Or.inr h1, fun hs => h2 (Or.inr hs)⟩
      · rintro ⟨rfl | h1, h2⟩
        · exact Or.inl rfl
        · by_cases hab : a = b
          · exact Or.inl hab
          · refine Or.inr ⟨h1, ?_⟩
            simp only [List.mem_cons, not_or]
            exact ⟨hab, h2⟩

theorem nodup_dedupFirstAux [DecidableEq α] (l : List α) :
    ∀ seen : List α, (dedupFirstAux seen l).Nodup := by
  induction l with
  | nil => intro seen; simp [dedupFirstAux]
  | cons b l ih =>
    intro seen
    by_cases hb : b ∈ seen
    · rw [dedupFirstAux, if_pos hb]; exact ih seen
    · rw [dedupFirstAux, if_neg hb]
      refine List.nodup_cons.mpr ⟨?_, ih (b :: seen)⟩
      intro hmem
      exact ((mem_dedupFirstAux l (b :: seen) b).mp hmem).2 (List.mem_cons_self b seen)

theorem mem_sortedUnique (l : List Nat) (a : Nat) : a ∈ sortedUnique l ↔ a ∈ l := by
  rw [sortedUnique, List.mem_insertionSort, dedupFirst]
  simpa using mem_dedupFirstAux l [] a

theorem nodup_sortedUnique (l : List Nat) : (sortedUnique l).Nodup :=
  (List.perm_insertionSort _ _).nodup_iff.mpr (nodup_dedupFirstAux l [])

theorem sorted_le_sortedUnique (l : List Nat) : List.Sorted (· ≤ ·) (sortedUnique l) :=
  List.sorted_insertionSort _ _

theorem sorted_lt_sortedUnique (l : List Nat) : List.Sorted (· < ·) (sortedUnique l) :=
  (sorted_le_sortedUnique l).lt_of_le (nodup_sortedUnique l)

theorem getD_map_of_lt {α β : Type} (f : α → β) (l : List α) (i : Nat)
    (h : i < l.length) (d : β) (d' : α) :
    (l.map f).getD i d = f (l.getD i d') := by
  simp [List.getD_eq_getElem?_getD, List.getElem?_map, List.getElem?_eq_getElem h]

theorem getLastD_map {α β : Type} (f : α → β) (l : List α) (h : l ≠ []) (d : β) (d' : α) :
    (l.map f).getLastD d = f (l.getLastD d') := by
  induction l with
  | nil => exact absurd rfl h
  | cons a l ih =>
    cases l with
    | nil => simp
    | cons b m => simpa using ih (by simp)

theorem sum_filterMap_id (l : List (Option ℚ)) :
    (l.filterMap id).sum = (l.map (fun o => o.getD 0)).sum := by
  induction l with
  | nil => rfl
  | cons a l ih => cases a <;> simp [ih]

theorem nonMissing_map_some (l : List ℚ) : nonMissing (l.map some) = l := by
  simp [nonMissing]

theorem nansum_map_some (l : List ℚ) : nansum (l.map some) = l.sum := by
  simp [nansum, nonMissing]

theorem years_of_ne_nil (rows : List Row) (h : rows ≠ []) : years_of rows ≠ [] := by
  cases rows with
  | nil => exact absurd rfl h
  | cons r rest =>
    intro hnil
    have hmem : r.year ∈ years_of (r :: rest) := by
      rw [years_of, mem_sortedUnique]
      simp
    rw [hnil] at hmem
    simp at hmem

theorem rows_ne_nil_of_codes (rows : List Row) (j : Nat)
    (h : j < (school_codes rows).length) : rows ≠ [] := by
  intro hnil
  subst hnil
  simp [school_codes, sortedUnique, dedupFirst, dedupFirstAux, List.insertionSort] at h

/-- The one computation shared by the mean-yearly claims: `np.nanmean` of the
per-year totals divides by the number of all years, because `np.nansum`
never produces NaN. -/
theorem mean_yearly_eq (data : Table) (j : Nat) (h : data ≠ []) :
    (print_school_statistics data j).mean_yearly =
      some ((print_school_statistics data j).total_ten_year / data.length) := by
  simp only [print_school_statistics]
  rw [nanmean, nonMissing_map_some, nansum_map_some]
  have hlen : ((school_slice data j).map nansum).length = data.length := by
    simp [school_slice]
  rw [if_neg (by simpa [hlen, List.length_eq_zero] using h), hlen]

end SchoolData

/-! ## Claim theorems -/

namespace SchoolData

/-- Claim C1 (code bug): entering a valid school code makes `main` crash with
an uncaught `UnboundLocalError` — the integer branch resolves the index and
name but never assigns `school_code`, which the statistics call then
references — so no statistics are computed, while entering the
corresponding school name resolves (index 0, "Alpha", code 101) and prints
both reports.  The spec intends both selections to produce the same
statistics. -/
theorem C1_code_input_crashes :
    isCrash (main_outcome sampleRows "101") = true ∧
    resolvedTriple (main_outcome sampleRows "Alpha") = some (0, "Alpha", 101) := by
  decide

/-- Claim C3, counterexample: `"-123"` parses as an integer in the Python
`int` sense, is not a school code, and yet the selector reports the
name-specific message, not the code-specific one — the code dispatches on
`str.isdigit`, not on integer parsability. -/
theorem C3_counterexample :
    (pyIntParse "-123").isSome = true ∧
    (-123 : Int) ∉ (school_codes sampleRows).map (fun c => (c : Int)) ∧
    main_outcome sampleRows "-123" = MainOutcome.valueError "School name not found." := by
  decide

/-- Claim C3 as amended: an input consisting solely of decimal digits is
treated as a school code and fails with "School code not found." when the
number is not in the code set; any other input is treated as a literal
school name and fails with "School name not found." when no exact match
exists; both failures are caught `ValueError`s (message printed, normal
end). -/
theorem C3_selector_failure_messages (rows : List Row) (input : String) :
    (pyIsDigit input = true → pyInt input ∉ school_codes rows →
      main_outcome rows input = MainOutcome.valueError "School code not found.") ∧
    (pyIsDigit input = false → lookupCodeByName (school_names rows) input = none →
      main_outcome rows input = MainOutcome.valueError "School name not found.") := by
  constructor
  · intro h1 h2
    simp [main_outcome, h1, h2]
  · intro h1 h2
    simp [main_outcome, h1, h2]

theorem C3_witness :
    main_outcome sampleRows "999" = MainOutcome.valueError "School code not found." ∧
    main_outcome sampleRows "Gamma" = MainOutcome.valueError "School name not found." :=
  ⟨(C3_selector_failure_messages sampleRows "999").1 (by decide) (by decide),
   (C3_selector_failure_messages sampleRows "Gamma").2 (by decide) (by decide)⟩

/-- Claim C10: only an all-decimal-digit input takes the school-code branch;
any other input (such as "-123" or "12.0") is matched against school names,
so on a failed lookup the outcome is the name-not-found message — never the
code-not-found message and never the code-branch crash. -/
theorem C10_nondigit_input_is_name_lookup (rows : List Row) (input : String)
    (h : pyIsDigit input = false) :
    (lookupCodeByName (school_names rows) input = none →
      main_outcome rows input = MainOutcome.valueError "School name not found.") ∧
    main_outcome rows input ≠ MainOutcome.valueError "School code not found." ∧
    main_outcome rows input ≠ MainOutcome.unboundLocalCrash := by
  refine ⟨fun h2 => by simp [main_outcome, h, h2], ?_⟩
  cases hfind : lookupCodeByName (school_names rows) input with
  | none => constructor <;> simp [main_outcome, h, hfind]
  | some c => constructor <;> simp [main_outcome, h, hfind]

theorem C10_witness :
    pyIsDigit "12.0" = false ∧
    main_outcome sampleRows "12.0" = MainOutcome.valueError "School name not found." :=
  ⟨by decide, (C10_nondigit_input_is_name_lookup sampleRows "12.0" (by decide)).1 (by decide)⟩

end SchoolData

namespace SchoolData

/-- Claim C2, counterexample: school 0 of `sampleRows` has all of 2014
missing; its per-year totals are `[900, 0]` and the mean of yearly totals
is `900 / 2 = 450`, not the `900 / 1 = 900` that excluding the
fully-missing year from the denominator would give — `np.nansum` turns the
all-missing year into a `0` entry that `np.nanmean` counts. -/
theorem C2_counterexample :
    (print_school_statistics (load_table sampleRows) 0).total_enrollment_per_year = [900, 0] ∧
    (print_school_statistics (load_table sampleRows) 0).mean_yearly = some 450 ∧
    (450 : ℚ) ≠ 900 := by
  have htab : load_table sampleRows =
      [[[some 100, some 200, some 600], [none, none, none]],
       [[none, none, none], [some 50, some 60, some 70]]] := rfl
  rw [htab]
  refine ⟨?_, ?_, by norm_num⟩
  · simp [print_school_statistics, school_slice, nansum, nonMissing]
    norm_num
  · simp [print_school_statistics, school_slice, nansum, nanmean, nonMissing]
    norm_num

/-- Claim C2 as amended: the per-year totals are missing-aware sums (the
cells of each year with the missing ones dropped, so a fully-missing year
contributes a total of `0`), and the mean of the yearly totals divides the
ten-year total by the number of ALL years in the table — a fully-missing
year stays in the denominator as a zero-contribution term. -/
theorem C2_per_year_sums_and_mean (data : Table) (j : Nat) (h : data ≠ []) :
    (print_school_statistics data j).total_enrollment_per_year =
      (school_slice data j).map (fun yr => (nonMissing yr).sum) ∧
    (print_school_statistics data j).mean_yearly =
      some ((print_school_statistics data j).total_ten_year / data.length) :=
  ⟨rfl, mean_yearly_eq data j h⟩

theorem C2_witness :
    (print_school_statistics (load_table sampleRows) 0).total_enrollment_per_year =
      (school_slice (load_table sampleRows) 0).map (fun yr => (nonMissing yr).sum) ∧
    (print_school_statistics (load_table sampleRows) 0).mean_yearly =
      some ((print_school_statistics (load_table sampleRows) 0).total_ten_year /
            (load_table sampleRows).length) :=
  C2_per_year_sums_and_mean (load_table sampleRows) 0 (by decide)

/-- Claim C4: the per-grade mean excludes missing cells from both the sum
and the count: for each grade position it is the sum of the non-missing
values of that school in that grade divided by their number. -/
theorem C4_mean_per_grade_missing_aware (data : Table) (j g : Nat) (hg : g < 3)
    (h : (nonMissing (gradeColumn (school_slice data j) g)).length ≠ 0) :
    ((print_school_statistics data j).mean_enrollments).getD g none =
      some ((nonMissing (gradeColumn (school_slice data j) g)).sum /
            (nonMissing (gradeColumn (school_slice data j) g)).length) := by
  have hrange : g < (List.range 3).length := by simpa using hg
  simp only [print_school_statistics]
  rw [getD_map_of_lt _ _ _ hrange none 0]
  rw [List.getD_eq_getElem?_getD, List.getElem?_range hg]
  simp only [Option.getD_some]
  rw [nanmean, if_neg h]

theorem C4_witness :
    ((print_school_statistics (load_table sampleRows) 0).mean_enrollments).getD 0 none =
      some ((nonMissing (gradeColumn (school_slice (load_table sampleRows) 0) 0)).sum /
            (nonMissing (gradeColumn (school_slice (load_table sampleRows) 0) 0)).length) :=
  C4_mean_per_grade_missing_aware (load_table sampleRows) 0 0 (by decide) (by decide)

/-- Claim C5: the ten-year total equals the sum of the per-year totals
(`np.nansum` over the per-year totals, which contain no NaN, is their sum). -/
theorem C5_ten_year_total_eq_sum_per_year (data : Table) (j : Nat) :
    (print_school_statistics data j).total_ten_year =
      ((print_school_statistics data j).total_enrollment_per_year).sum := by
  simp only [print_school_statistics]
  exact nansum_map_some _

/-- Claim C9: the mean yearly total always equals the ten-year total divided
by the number of years in the table, fully-missing years included in the
denominator (and contributing `0` to the numerator). -/
theorem C9_mean_yearly_total (rows : List Row) (j : Nat)
    (h : j < (school_codes rows).length) :
    (print_school_statistics (load_table rows) j).mean_yearly =
      some ((print_school_statistics (load_table rows) j).total_ten_year /
            (load_table rows).length) := by
  apply mean_yearly_eq
  have hrows : rows ≠ [] := rows_ne_nil_of_codes rows j h
  simpa [load_table] using years_of_ne_nil rows hrows

theorem C9_witness :
    (print_school_statistics (load_table sampleRows) 0).mean_yearly =
      some ((print_school_statistics (load_table sampleRows) 0).total_ten_year /
            (load_table sampleRows).length) :=
  C9_mean_yearly_total sampleRows 0 (by decide)

end SchoolData

namespace SchoolData

/-- If the guarded list is empty the reported median is `none`, independent
of the median function applied in the other branch. -/
theorem ifEmpty_eq_none_iff (l : List ℚ) (f : List ℚ → ℚ) :
    (if l.isEmpty then none else some (f l)) = none ↔ l = [] := by
  cases l <;> simp

/-- Claim C6: the large-classes collection is exactly the non-missing
grade-values strictly greater than 500 of that school (in year-major
traversal order); the median is reported absent exactly when no such value
exists, and otherwise it is the `np.median` of the collection. -/
theorem C6_large_classes_median (data : Table) (j : Nat) :
    (print_school_statistics data j).large_classes =
      (nonMissing (school_slice data j).flatten).filter (fun v => 500 < v) ∧
    ((print_school_statistics data j).median_large_classes = none ↔
      ∀ v ∈ nonMissing (school_slice data j).flatten, ¬ 500 < v) ∧
    ((print_school_statistics data j).large_classes ≠ [] →
      (print_school_statistics data j).median_large_classes =
        some (npMedian ((print_school_statistics data j).large_classes))) := by
  refine ⟨rfl, ?_, ?_⟩
  · simp only [print_school_statistics]
    rw [ifEmpty_eq_none_iff, List.filter_eq_nil_iff]
    simp
  · intro h
    simp only [print_school_statistics] at h ⊢
    rw [if_neg (by simpa [List.isEmpty_iff] using h)]

theorem C6_witness :
    (print_school_statistics (load_table sampleRows) 0).median_large_classes =
      some (npMedian ((print_school_statistics (load_table sampleRows) 0).large_classes)) :=
  (C6_large_classes_median (load_table sampleRows) 0).2.2 (by decide)

/-- Claim C7: the graduating-class total of the aggregate reporter is the
missing-aware sum over all schools of the grade-12 value in the last year:
a school with a row for the last year contributes its grade-12 count, a
school without one contributes nothing. -/
theorem C7_last_year_grade12_total (rows : List Row) (h : rows ≠ []) :
    (print_general_statistics (load_table rows)).total_grads_last =
      ((school_codes rows).map (fun c =>
        match rows.find? (fun r => r.year == lastYear rows && r.code == c) with
        | some r => r.g12
        | none => 0)).sum := by
  have hy : years_of rows ≠ [] := years_of_ne_nil rows h
  have hlast : (load_table rows).getLastD [] =
      (school_codes rows).map (fun c => cellFor rows (lastYear rows) c) := by
    rw [load_table, lastYear]
    exact getLastD_map _ _ hy _ 0
  simp only [print_general_statistics]
  rw [hlast, gradeColumn, List.map_map, nansum, nonMissing, sum_filterMap_id, List.map_map]
  congr 1
  apply List.map_congr_left
  intro c _
  cases hfind : rows.find? (fun r => r.year == lastYear rows && r.code == c) with
  | some r => simp [Function.comp, cellFor, hfind]
  | none => simp [Function.comp, cellFor, hfind]

theorem C7_witness :
    (print_general_statistics (load_table sampleRows)).total_grads_last =
      ((school_codes sampleRows).map (fun c =>
        match sampleRows.find? (fun r => r.year == lastYear sampleRows && r.code == c) with
        | some r => r.g12
        | none => 0)).sum :=
  C7_last_year_grade12_total sampleRows (by decide)

/-- Claim C8: the loaded table has one row of cells per distinct year and
per distinct school code (each cell a 3-vector of grades), the year axis is
strictly ascending, the school axis is strictly ascending by code, both
axes carry exactly the values present in the source, a (year, school)
combination with no source row is the all-missing cell, and one with a
source row holds the three grade counts of the first such row. -/
theorem C8_loader_invariants (rows : List Row) (i j : Nat)
    (hi : i < (years_of rows).length) (hj : j < (school_codes rows).length) :
    (load_table rows).length = (years_of rows).length ∧
    List.Sorted (· < ·) (years_of rows) ∧
    List.Sorted (· < ·) (school_codes rows) ∧
    (∀ y, y ∈ years_of rows ↔ y ∈ rows.map (·.year)) ∧
    (∀ c, c ∈ school_codes rows ↔ c ∈ rows.map (·.code)) ∧
    ((load_table rows).getD i []).length = (school_codes rows).length ∧
    (rows.find? (fun r => r.year == (years_of rows).getD i 0 &&
        r.code == (school_codes rows).getD j 0) = none →
      ((load_table rows).getD i []).getD j [] = [none, none, none]) ∧
    (∀ r, rows.find? (fun r' => r'.year == (years_of rows).getD i 0 &&
        r'.code == (school_codes rows).getD j 0) = some r →
      ((load_table rows).getD i []).getD j [] = [some r.g10, some r.g11, some r.g12]) := by
  have hrow : (load_table rows).getD i [] =
      (school_codes rows).map (fun c => cellFor rows ((years_of rows).getD i 0) c) := by
    rw [load_table]
    exact getD_map_of_lt _ _ _ hi _ 0
  have hcell : ((load_table rows).getD i []).getD j [] =
      cellFor rows ((years_of rows).getD i 0) ((school_codes rows).getD j 0) := by
    rw [hrow]
    exact getD_map_of_lt _ _ _ hj _ 0
  refine ⟨by simp [load_table], sorted_lt_sortedUnique _, sorted_lt_sortedUnique _,
    fun y => mem_sortedUnique _ y, fun c => mem_sortedUnique _ c, by rw [hrow]; simp, ?_, ?_⟩
  · intro hfind
    rw [hcell, cellFor, hfind]
  · intro r hfind
    rw [hcell, cellFor, hfind]

theorem C8_witness :
    ((load_table sampleRows).getD 1 []).getD 0 [] = [none, none, none] :=
  (C8_loader_invariants sampleRows 1 0 (by decide) (by decide)).2.2.2.2.2.2.1 (by decide)

end SchoolData
